import Mathlib

/-!
Verification of the owner-swap log analyzer
(`ownerswap_analyzer/ownerswap_analyzer.py`).

The Python module is embedded shallowly:

* the integer state and event constants are Lean `Nat` definitions with the
  source's names and values;
* `owner_swap_state_machine` is translated branch for branch, including the
  `Unknown state` fallback for out-of-range integers;
* the six `re.search` calls all use regexes made only of literal characters
  (the one metacharacter `|` is escaped in the source), so matching a line is
  exactly substring containment, modelled with `List.IsInfix` on the
  character lists of the strings;
* the per-file scanning loop of `analyze_log_file`, with its first-match
  event extraction and its early stop on a non-"OK" diagnostic, becomes the
  recursive function `run_lines`;
* the `try/except` wrapper of `analyze_log_file` is modelled by letting the
  file contents arrive as `Except String (List String)`: `Except.error e`
  stands for a read or decode failure whose message is `e`, and the CSV row
  the Python writes becomes the `FileVerdict` structure.
-/

namespace OwnerSwap

/-- Constant `STATE_WAITING_FOR_OWNER_PAIRING = 0` from the source. -/
def STATE_WAITING_FOR_OWNER_PAIRING : Nat := 0

/-- Constant `STATE_OWNER_PAIRING_STARTED = 1` from the source. -/
def STATE_OWNER_PAIRING_STARTED : Nat := 1

/-- Constant `STATE_OWNER_PAIRING_COMPLETED = 2` from the source. -/
def STATE_OWNER_PAIRING_COMPLETED : Nat := 2

/-- Constant `STATE_OWNER_SWAP_INITIATED = 3` from the source. -/
def STATE_OWNER_SWAP_INITIATED : Nat := 3

/-- Constant `STATE_OLD_OWNER_DISCONNECTED = 4` from the source. -/
def STATE_OLD_OWNER_DISCONNECTED : Nat := 4

/-- Constant `STATE_OWNER_SWAP_COMPLETED = 5` from the source. -/
def STATE_OWNER_SWAP_COMPLETED : Nat := 5

/-- Constant `STATE_BOND_DELETED_STILL_CONNECTED = 6` from the source. -/
def STATE_BOND_DELETED_STILL_CONNECTED : Nat := 6

/-- Constant `STATE_NEW_OWNER_DISCONNECTED_BOND_STILL_EXIST = 7` from the source. -/
def STATE_NEW_OWNER_DISCONNECTED_BOND_STILL_EXIST : Nat := 7

/-- Constant `STATE_OWNER_SWAP_SUCCESS = 8` from the source. -/
def STATE_OWNER_SWAP_SUCCESS : Nat := 8

/-- Constant `EVENT_OWNER_PAIRING_STARTED = 0` from the source. -/
def EVENT_OWNER_PAIRING_STARTED : Nat := 0

/-- Constant `EVENT_OWNER_PAIRING_COMPLETED = 1` from the source. -/
def EVENT_OWNER_PAIRING_COMPLETED : Nat := 1

/-- Constant `EVENT_OLD_OWNER_DISCONNECTED = 2` from the source. -/
def EVENT_OLD_OWNER_DISCONNECTED : Nat := 2

/-- Constant `EVENT_BOND_DELETION = 3` from the source. -/
def EVENT_BOND_DELETION : Nat := 3

/-- Constant `EVENT_BOND_DELETION_FAILED = 4` from the source. -/
def EVENT_BOND_DELETION_FAILED : Nat := 4

/-- Constant `EVENT_NEW_OWNER_DISCONNECTED = 5` from the source. -/
def EVENT_NEW_OWNER_DISCONNECTED : Nat := 5

/-- The transition function `owner_swap_state_machine(events, current_state)`
of the source, translated branch for branch.  It returns the pair
`(new_state, status_message)`. -/
def owner_swap_state_machine (events : Nat) (current_state : Nat) : Nat × String :=
  if current_state = STATE_WAITING_FOR_OWNER_PAIRING then
    if events = EVENT_OWNER_PAIRING_STARTED then
      (STATE_OWNER_PAIRING_STARTED, "OK")
    else
      (current_state, "Owner Pairing was not started")
  else if current_state = STATE_OWNER_PAIRING_STARTED then
    if events = EVENT_OWNER_PAIRING_COMPLETED then
      (STATE_OWNER_PAIRING_COMPLETED, "OK")
    else
      (current_state, "Owner Pairing was not completed")
  else if current_state = STATE_OWNER_PAIRING_COMPLETED then
    if events = EVENT_OWNER_PAIRING_STARTED then
      (STATE_OWNER_SWAP_INITIATED, "OK")
    else
      (current_state, "Owner Swap was not initiated")
  else if current_state = STATE_OWNER_SWAP_INITIATED then
    if events = EVENT_OLD_OWNER_DISCONNECTED then
      (STATE_OLD_OWNER_DISCONNECTED, "OK")
    else
      (current_state, "Old Owner did not disconnect")
  else if current_state = STATE_OLD_OWNER_DISCONNECTED then
    if events = EVENT_OWNER_PAIRING_COMPLETED then
      (STATE_OWNER_SWAP_COMPLETED, "OK")
    else
      (current_state, "Owner Swap was not completed")
  else if current_state = STATE_OWNER_SWAP_COMPLETED then
    if events = EVENT_BOND_DELETION then
      (STATE_BOND_DELETED_STILL_CONNECTED, "OK")
    else if events = EVENT_BOND_DELETION_FAILED then
      (current_state, "Bond Deletion failed")
    else if events = EVENT_NEW_OWNER_DISCONNECTED then
      (STATE_NEW_OWNER_DISCONNECTED_BOND_STILL_EXIST, "OK")
    else
      (current_state, "Bond Deletion did not occur before disconnecting")
  else if current_state = STATE_BOND_DELETED_STILL_CONNECTED then
    if events = EVENT_NEW_OWNER_DISCONNECTED then
      (STATE_OWNER_SWAP_SUCCESS, "OK")
    else if events = EVENT_OLD_OWNER_DISCONNECTED then
      (current_state, "OK")
    else
      (current_state, "New Owner did not disconnect")
  else if current_state = STATE_NEW_OWNER_DISCONNECTED_BOND_STILL_EXIST then
    if events = EVENT_BOND_DELETION then
      (STATE_OWNER_SWAP_SUCCESS, "OK")
    else if events = EVENT_BOND_DELETION_FAILED then
      (current_state, "Bond Deletion failed")
    else if events = EVENT_OLD_OWNER_DISCONNECTED then
      (current_state, "OK")
    else
      (current_state, "Bond Deletion did no occur after disconnecting")
  else if current_state = STATE_OWNER_SWAP_SUCCESS then
    (current_state, "OK")
  else
    (current_state, "Unknown state: " ++ toString current_state)

/-- Regex of the first `re.search` of the scan loop: `Owner Pairing Started`. -/
def PATTERN_OWNER_PAIRING_STARTED : String := "Owner Pairing Started"

/-- Regex of the second `re.search`: `Owner Pairing Complete!`. -/
def PATTERN_OWNER_PAIRING_COMPLETED : String := "Owner Pairing Complete!"

/-- Regex of the third `re.search`: `Link Terminated Received, link 0x00`. -/
def PATTERN_OLD_OWNER_DISCONNECTED : String := "Link Terminated Received, link 0x00"

/-- Regex of the fourth `re.search` (the escaped `\|` is a literal bar):
`BLE Cloud Event: Bond Deletion - Deletion Type: 02 | Status: 00`. -/
def PATTERN_BOND_DELETION : String :=
  "BLE Cloud Event: Bond Deletion - Deletion Type: 02 | Status: 00"

/-- Regex of the fifth `re.search`:
`BLE Cloud Event: Bond Deletion - Deletion Type: 02 | Status:`. -/
def PATTERN_BOND_DELETION_FAILED : String :=
  "BLE Cloud Event: Bond Deletion - Deletion Type: 02 | Status:"

/-- Regex of the sixth `re.search`: `Link Terminated Received, link 0x01`. -/
def PATTERN_NEW_OWNER_DISCONNECTED : String := "Link Terminated Received, link 0x01"

/-- Model of `re.search(pattern, line)` from the source, as a Boolean.  Every pattern in
the scan loop consists of literal characters only, so a match is exactly
substring containment of the pattern in the line. -/
def re_search (pattern line : String) : Bool :=
  decide (pattern.data <:+: line.data)

/-- The `if/elif` chain of the scan loop in `analyze_log_file` that maps a
line to at most one event: the six patterns are tried in the source's order,
the first match wins, and a line matching none yields no event. -/
def extract_event (line : String) : Option Nat :=
  if re_search PATTERN_OWNER_PAIRING_STARTED line then
    some EVENT_OWNER_PAIRING_STARTED
  else if re_search PATTERN_OWNER_PAIRING_COMPLETED line then
    some EVENT_OWNER_PAIRING_COMPLETED
  else if re_search PATTERN_OLD_OWNER_DISCONNECTED line then
    some EVENT_OLD_OWNER_DISCONNECTED
  else if re_search PATTERN_BOND_DELETION line then
    some EVENT_BOND_DELETION
  else if re_search PATTERN_BOND_DELETION_FAILED line then
    some EVENT_BOND_DELETION_FAILED
  else if re_search PATTERN_NEW_OWNER_DISCONNECTED line then
    some EVENT_NEW_OWNER_DISCONNECTED
  else
    none

/-- One iteration of the scan loop on one line: a matched line feeds its
event to the state machine, an unmatched line leaves `(state, result)`
untouched. -/
def process_line (line : String) (st : Nat × String) : Nat × String :=
  match extract_event line with
  | some e => owner_swap_state_machine e st.1
  | none => st

/-- The `for line in file` loop of `analyze_log_file`: lines are scanned in
order; a matched line updates `(owner_swap_state, result)` through the state
machine and the loop breaks as soon as the new `result` differs from `"OK"`;
an unmatched line changes nothing and never breaks. -/
def run_lines : List String → Nat × String → Nat × String
  | [], st => st
  | line :: rest, st =>
    match extract_event line with
    | some e =>
      let st' := owner_swap_state_machine e st.1
      if st'.2 ≠ "OK" then st' else run_lines rest st'
    | none => run_lines rest st

/-- The initial `(owner_swap_state, result)` of `analyze_log_file`:
`STATE_WAITING_FOR_OWNER_PAIRING` with default result `"OK"`. -/
def initial_st : Nat × String := (STATE_WAITING_FOR_OWNER_PAIRING, "OK")

/-- The whole scan of one file's lines, from the initial state. -/
def analyze_lines (lines : List String) : Nat × String :=
  run_lines lines initial_st

/-- The CSV row `[file, status, final_state, result]` that `analyze_log_file`
appends for one file, minus the file name (which never influences the
verdict). -/
structure FileVerdict where
  status : String
  final_state : String
  result : String
deriving DecidableEq

/-- The verdict branch at the end of `analyze_log_file`: the row is `FAILED`
when `owner_swap_state != STATE_OWNER_SWAP_SUCCESS or result != "OK"`, and
`PASSED` otherwise. -/
def verdict_row (st : Nat × String) : FileVerdict :=
  if st.1 ≠ STATE_OWNER_SWAP_SUCCESS ∨ st.2 ≠ "OK" then
    ⟨"FAILED", toString st.1, st.2⟩
  else
    ⟨"PASSED", toString st.1, st.2⟩

/-- Function `analyze_log_file` for one file.  The file's contents arrive either as
its list of lines (`Except.ok`) or as a read/decode failure with the
exception's message (`Except.error`); the `except` clause of the source
turns the latter into the row `FAILED, EXCEPTION, str(e)`. -/
def analyze_log_file (contents : Except String (List String)) : FileVerdict :=
  match contents with
  | Except.ok lines => verdict_row (analyze_lines lines)
  | Except.error e => ⟨"FAILED", "EXCEPTION", e⟩

/-- The per-file loop of `main`: each file is analyzed independently and
contributes exactly one row, in order. -/
def analyze_batch (files : List (Except String (List String))) : List FileVerdict :=
  files.map analyze_log_file

/-- The `(state, event)` pairs handled by an explicit branch of
`owner_swap_state_machine` (every `if`/`elif` arm of the source; all other
pairs of a known state fall into that state's `else` arm). -/
def handled (s e : Nat) : Bool :=
  (s = STATE_WAITING_FOR_OWNER_PAIRING && e = EVENT_OWNER_PAIRING_STARTED) ||
  (s = STATE_OWNER_PAIRING_STARTED && e = EVENT_OWNER_PAIRING_COMPLETED) ||
  (s = STATE_OWNER_PAIRING_COMPLETED && e = EVENT_OWNER_PAIRING_STARTED) ||
  (s = STATE_OWNER_SWAP_INITIATED && e = EVENT_OLD_OWNER_DISCONNECTED) ||
  (s = STATE_OLD_OWNER_DISCONNECTED && e = EVENT_OWNER_PAIRING_COMPLETED) ||
  (s = STATE_OWNER_SWAP_COMPLETED &&
    (e = EVENT_BOND_DELETION || e = EVENT_BOND_DELETION_FAILED ||
      e = EVENT_NEW_OWNER_DISCONNECTED)) ||
  (s = STATE_BOND_DELETED_STILL_CONNECTED &&
    (e = EVENT_NEW_OWNER_DISCONNECTED || e = EVENT_OLD_OWNER_DISCONNECTED)) ||
  (s = STATE_NEW_OWNER_DISCONNECTED_BOND_STILL_EXIST &&
    (e = EVENT_BOND_DELETION || e = EVENT_BOND_DELETION_FAILED ||
      e = EVENT_OLD_OWNER_DISCONNECTED)) ||
  (s = STATE_OWNER_SWAP_SUCCESS)

/-- Seven concrete log lines, one per pattern occurrence of the spec's
full-success scenario, used as a witness stream. -/
def scenario_full_success_lines : List String :=
  [("Owner Pairing Started"), ("Owner Pairing Complete!"),
   ("Owner Pairing Started"), ("Link Terminated Received, link 0x00"),
   ("Owner Pairing Complete!"),
   ("BLE Cloud Event: Bond Deletion - Deletion Type: 02 | Status: 00"),
   ("Link Terminated Received, link 0x01")]

/-- Helper: the two branches of `verdict_row`, characterised by the success
condition of the source's final `if`. -/
theorem verdict_row_cases (st : Nat × String) :
    ((verdict_row st).status = "PASSED" ↔
      (st.1 = STATE_OWNER_SWAP_SUCCESS ∧ st.2 = "OK")) ∧
    (¬(st.1 = STATE_OWNER_SWAP_SUCCESS ∧ st.2 = "OK") →
      (verdict_row st).status = "FAILED") := by
  by_cases h1 : st.1 = STATE_OWNER_SWAP_SUCCESS <;>
    by_cases h2 : st.2 = "OK" <;>
      simp [verdict_row, h1, h2]

/-- Helper: the extractor only ever produces one of the six event codes. -/
theorem extract_event_lt (line : String) (e : Nat)
    (h : extract_event line = some e) : e < 6 := by
  unfold extract_event at h
  split_ifs at h <;>
    simp_all [EVENT_OWNER_PAIRING_STARTED, EVENT_OWNER_PAIRING_COMPLETED,
      EVENT_OLD_OWNER_DISCONNECTED, EVENT_BOND_DELETION,
      EVENT_BOND_DELETION_FAILED, EVENT_NEW_OWNER_DISCONNECTED] <;>
    omega

/-- Helper: one transition step from a known state on a known event keeps
the state among the 9 known ones, and a result state
`STATE_OWNER_SWAP_SUCCESS` comes with diagnostic "OK". -/
theorem machine_success_step (s : Nat) (hs : s < 9) (e : Nat) (he : e < 6) :
    (owner_swap_state_machine e s).1 < 9 ∧
    ((owner_swap_state_machine e s).1 = STATE_OWNER_SWAP_SUCCESS →
      (owner_swap_state_machine e s).2 = "OK") := by
  revert s hs e he
  decide

/-- Helper: when a prefix of the stream scans without an early stop (its
final diagnostic is "OK"), scanning the whole stream continues from the
prefix's final pair. -/
theorem run_lines_append_of_ok (pre rest : List String) (st : Nat × String)
    (h : (run_lines pre st).2 = "OK") :
    run_lines (pre ++ rest) st = run_lines rest (run_lines pre st) := by
  induction pre generalizing st with
  | nil => rfl
  | cons line tl ih =>
    cases hx : extract_event line with
    | none =>
      simp only [run_lines, hx] at h ⊢
      exact ih st h
    | some e =>
      simp only [List.cons_append, run_lines, hx] at h ⊢
      by_cases hok : (owner_swap_state_machine e st.1).2 = "OK"
      · have hcond : ¬((owner_swap_state_machine e st.1).2 ≠ "OK") :=
          fun hne => hne hok
        simp only [if_neg hcond] at h ⊢
        exact ih _ h
      · rw [if_pos hok] at h
        exact absurd h hok

/-- Helper: lines yielding no event are skipped with no effect on the scan. -/
theorem run_lines_skip_none :
    ∀ (pre : List String), (∀ l ∈ pre, extract_event l = none) →
      ∀ (ls : List String) (st : Nat × String),
        run_lines (pre ++ ls) st = run_lines ls st := by
  intro pre
  induction pre with
  | nil => intro _ ls st; rfl
  | cons line tl ih =>
    intro h ls st
    have hline : extract_event line = none := h line (List.mem_cons_self line tl)
    simp only [List.cons_append, run_lines, hline]
    exact ih (fun l hl => h l (List.mem_cons_of_mem line hl)) ls st

/-- Helper: the scan result depends only on the sequence of extracted
events, not on the raw text of the lines. -/
theorem run_lines_congr :
    ∀ (ls ls' : List String), ls.map extract_event = ls'.map extract_event →
      ∀ st, run_lines ls st = run_lines ls' st := by
  intro ls
  induction ls with
  | nil =>
    intro ls' h st
    cases ls' with
    | nil => rfl
    | cons b tl' => simp at h
  | cons a tl ih =>
    intro ls' h st
    cases ls' with
    | nil => simp at h
    | cons b tl' =>
      simp only [List.map_cons, List.cons.injEq] at h
      obtain ⟨hab, htl⟩ := h
      simp only [run_lines, hab]
      cases hb : extract_event b with
      | none => exact ih tl' htl st
      | some e =>
        dsimp only
        by_cases hok : (owner_swap_state_machine e st.1).2 = "OK"
        · have hcond : ¬((owner_swap_state_machine e st.1).2 ≠ "OK") :=
            fun hne => hne hok
          simp only [if_neg hcond]
          exact ih tl' htl _
        · rw [if_pos hok, if_pos hok]

/-- Helper: along any scan starting from a pair satisfying it, the invariant
"the state is among the 9 known ones, and state `STATE_OWNER_SWAP_SUCCESS`
implies diagnostic OK" holds of the result. -/
theorem run_lines_success_inv :
    ∀ (ls : List String) (st : Nat × String),
      st.1 < 9 → (st.1 = STATE_OWNER_SWAP_SUCCESS → st.2 = "OK") →
      (run_lines ls st).1 < 9 ∧
      ((run_lines ls st).1 = STATE_OWNER_SWAP_SUCCESS →
        (run_lines ls st).2 = "OK") := by
  intro ls
  induction ls with
  | nil => intro st h9 hok; exact ⟨h9, hok⟩
  | cons line tl ih =>
    intro st h9 hok
    cases hx : extract_event line with
    | none =>
      simp only [run_lines, hx]
      exact ih st h9 hok
    | some e =>
      have he : e < 6 := extract_event_lt line e hx
      have hstep := machine_success_step st.1 h9 e he
      simp only [run_lines, hx]
      by_cases hcase : (owner_swap_state_machine e st.1).2 = "OK"
      · have hcond : ¬((owner_swap_state_machine e st.1).2 ≠ "OK") :=
          fun hne => hne hcase
        rw [if_neg hcond]
        exact ih _ hstep.1 (fun _ => hcase)
      · rw [if_pos hcase]
        exact hstep

/-- C1: for every finite stream of log lines, the reported status is
"PASSED" exactly when the final state is `STATE_OWNER_SWAP_SUCCESS` and the
final diagnostic is "OK"; in every other case it is "FAILED". -/
theorem C1_verdict_rule (lines : List String) :
    ((verdict_row (analyze_lines lines)).status = "PASSED" ↔
      ((analyze_lines lines).1 = STATE_OWNER_SWAP_SUCCESS ∧
        (analyze_lines lines).2 = "OK")) ∧
    (¬((analyze_lines lines).1 = STATE_OWNER_SWAP_SUCCESS ∧
        (analyze_lines lines).2 = "OK") →
      (verdict_row (analyze_lines lines)).status = "FAILED") :=
  verdict_row_cases (analyze_lines lines)

/-- C1 witness: the empty stream is not a success, so its status is
"FAILED". -/
theorem C1_verdict_rule_witness :
    (verdict_row (analyze_lines [])).status = "FAILED" :=
  (C1_verdict_rule []).2 (by decide)

/-- C2: if the lines before line k scan with diagnostic "OK" and line k
produces a non-"OK" diagnostic, the analyzer stops at line k: the final
(state, diagnostic) pair equals the pair produced at line k, whatever the
remaining lines contain. -/
theorem C2_early_stop (pre : List String) (line : String) (rest : List String)
    (hok : (run_lines pre initial_st).2 = "OK")
    (hstop : (process_line line (run_lines pre initial_st)).2 ≠ "OK") :
    analyze_lines (pre ++ line :: rest) =
      process_line line (run_lines pre initial_st) := by
  unfold analyze_lines
  rw [run_lines_append_of_ok pre (line :: rest) initial_st hok]
  cases hx : extract_event line with
  | none =>
    exfalso
    apply hstop
    simp only [process_line, hx]
    exact hok
  | some e =>
    simp only [process_line, hx] at hstop ⊢
    simp only [run_lines, hx]
    rw [if_pos hstop]

/-- C2 witness: a lone out-of-order completion line stops the scan at once,
and an appended line does not change the outcome. -/
theorem C2_early_stop_witness :
    analyze_lines ([] ++ ("Owner Pairing Complete!") :: [("Owner Pairing Started")]) =
      process_line ("Owner Pairing Complete!") (run_lines [] initial_st) :=
  C2_early_stop [] ("Owner Pairing Complete!") [("Owner Pairing Started")]
    (by decide) (by decide)

/-- C3 counterexample: in state
`STATE_NEW_OWNER_DISCONNECTED_BOND_STILL_EXIST` the fallback diagnostic of
the code reads "Bond Deletion did no occur after disconnecting", not the
claimed "Bond Deletion did not occur after disconnecting"; the event
`EVENT_OWNER_PAIRING_STARTED` exhibits the difference. -/
theorem C3_counterexample :
    ¬(owner_swap_state_machine EVENT_OWNER_PAIRING_STARTED
        STATE_NEW_OWNER_DISCONNECTED_BOND_STILL_EXIST =
      (STATE_NEW_OWNER_DISCONNECTED_BOND_STILL_EXIST,
        "Bond Deletion did not occur after disconnecting")) := by decide

/-- C3 (amended): in state `STATE_NEW_OWNER_DISCONNECTED_BOND_STILL_EXIST`,
`EVENT_BOND_DELETION` yields (`STATE_OWNER_SWAP_SUCCESS`, "OK"),
`EVENT_BOND_DELETION_FAILED` stays with "Bond Deletion failed",
`EVENT_OLD_OWNER_DISCONNECTED` stays with "OK", and every other event stays
with "Bond Deletion did no occur after disconnecting", the exact spelling of
the source. -/
theorem C3_new_owner_disconnected_transitions (e : Nat) (he : e < 6) :
    owner_swap_state_machine e STATE_NEW_OWNER_DISCONNECTED_BOND_STILL_EXIST =
      (if e = EVENT_BOND_DELETION then (STATE_OWNER_SWAP_SUCCESS, "OK")
       else if e = EVENT_BOND_DELETION_FAILED then
         (STATE_NEW_OWNER_DISCONNECTED_BOND_STILL_EXIST, "Bond Deletion failed")
       else if e = EVENT_OLD_OWNER_DISCONNECTED then
         (STATE_NEW_OWNER_DISCONNECTED_BOND_STILL_EXIST, "OK")
       else
         (STATE_NEW_OWNER_DISCONNECTED_BOND_STILL_EXIST,
           "Bond Deletion did no occur after disconnecting")) := by
  revert e
  decide

/-- C3 witness: the event `EVENT_OWNER_PAIRING_STARTED`, one of the "other"
events, leaves the state and yields the source's fallback diagnostic. -/
theorem C3_new_owner_disconnected_transitions_witness :
    owner_swap_state_machine EVENT_OWNER_PAIRING_STARTED
        STATE_NEW_OWNER_DISCONNECTED_BOND_STILL_EXIST =
      (STATE_NEW_OWNER_DISCONNECTED_BOND_STILL_EXIST,
        "Bond Deletion did no occur after disconnecting") :=
  (C3_new_owner_disconnected_transitions EVENT_OWNER_PAIRING_STARTED
    (by decide)).trans (by decide)

/-- C4: the transition function is total on the 9 states and 6 events (the
result is always a defined pair whose state is again one of the 9), and
every pair not handled by an explicit branch returns the unchanged input
state together with a failure diagnostic differing from "OK". -/
theorem C4_totality (s : Nat) (hs : s < 9) (e : Nat) (he : e < 6) :
    (owner_swap_state_machine e s).1 < 9 ∧
    (handled s e = false →
      (owner_swap_state_machine e s).1 = s ∧
      (owner_swap_state_machine e s).2 ≠ "OK") := by
  revert s hs e he
  decide

/-- C4 witness: `EVENT_OWNER_PAIRING_COMPLETED` in the initial state is an
unhandled pair: the state is unchanged and the diagnostic is not "OK". -/
theorem C4_totality_witness :
    (owner_swap_state_machine EVENT_OWNER_PAIRING_COMPLETED
        STATE_WAITING_FOR_OWNER_PAIRING).1 = STATE_WAITING_FOR_OWNER_PAIRING ∧
    (owner_swap_state_machine EVENT_OWNER_PAIRING_COMPLETED
        STATE_WAITING_FOR_OWNER_PAIRING).2 ≠ "OK" :=
  (C4_totality STATE_WAITING_FOR_OWNER_PAIRING (by decide)
    EVENT_OWNER_PAIRING_COMPLETED (by decide)).2 (by decide)

/-- C5: the terminal state is absorbing — every event in
`STATE_OWNER_SWAP_SUCCESS` returns the same state with diagnostic "OK". -/
theorem C5_success_absorbing (e : Nat) :
    owner_swap_state_machine e STATE_OWNER_SWAP_SUCCESS =
      (STATE_OWNER_SWAP_SUCCESS, "OK") := rfl

/-- C6: any stream whose extracted events are, in order, PairingStarted,
PairingCompleted, PairingStarted, OldOwnerDisconnected, PairingCompleted,
BondDeletion, NewOwnerDisconnected ends in state `STATE_OWNER_SWAP_SUCCESS`
with diagnostic "OK" and status "PASSED". -/
theorem C6_scenario_full_success (lines : List String)
    (h : lines.map extract_event =
      [some EVENT_OWNER_PAIRING_STARTED, some EVENT_OWNER_PAIRING_COMPLETED,
       some EVENT_OWNER_PAIRING_STARTED, some EVENT_OLD_OWNER_DISCONNECTED,
       some EVENT_OWNER_PAIRING_COMPLETED, some EVENT_BOND_DELETION,
       some EVENT_NEW_OWNER_DISCONNECTED]) :
    analyze_lines lines = (STATE_OWNER_SWAP_SUCCESS, "OK") ∧
    (verdict_row (analyze_lines lines)).status = "PASSED" := by
  have hmap : lines.map extract_event =
      scenario_full_success_lines.map extract_event := h.trans (by decide)
  have hL : analyze_lines lines = (STATE_OWNER_SWAP_SUCCESS, "OK") := by
    unfold analyze_lines
    rw [run_lines_congr lines scenario_full_success_lines hmap initial_st]
    decide
  exact ⟨hL, by rw [hL]; decide⟩

/-- C6 witness: the seven concrete scenario lines pass. -/
theorem C6_scenario_full_success_witness :
    analyze_lines scenario_full_success_lines =
      (STATE_OWNER_SWAP_SUCCESS, "OK") ∧
    (verdict_row (analyze_lines scenario_full_success_lines)).status =
      "PASSED" :=
  C6_scenario_full_success scenario_full_success_lines (by decide)

/-- C7: the extractor tries its six patterns in the source's priority order
and the first match determines the single event for the line; a success
bond-deletion line also matches the failure pattern yet never yields
`EVENT_BOND_DELETION_FAILED`, because the success pattern is checked first;
and a line matching no pattern yields no event and leaves the scan state and
diagnostic unchanged. -/
theorem C7_extractor_priority (line : String) (rest : List String)
    (st : Nat × String) :
    (re_search PATTERN_OWNER_PAIRING_STARTED line = true →
      extract_event line = some EVENT_OWNER_PAIRING_STARTED) ∧
    (re_search PATTERN_OWNER_PAIRING_STARTED line = false →
      re_search PATTERN_OWNER_PAIRING_COMPLETED line = true →
      extract_event line = some EVENT_OWNER_PAIRING_COMPLETED) ∧
    (re_search PATTERN_OWNER_PAIRING_STARTED line = false →
      re_search PATTERN_OWNER_PAIRING_COMPLETED line = false →
      re_search PATTERN_OLD_OWNER_DISCONNECTED line = true →
      extract_event line = some EVENT_OLD_OWNER_DISCONNECTED) ∧
    (re_search PATTERN_OWNER_PAIRING_STARTED line = false →
      re_search PATTERN_OWNER_PAIRING_COMPLETED line = false →
      re_search PATTERN_OLD_OWNER_DISCONNECTED line = false →
      re_search PATTERN_BOND_DELETION line = true →
      extract_event line = some EVENT_BOND_DELETION) ∧
    (re_search PATTERN_OWNER_PAIRING_STARTED line = false →
      re_search PATTERN_OWNER_PAIRING_COMPLETED line = false →
      re_search PATTERN_OLD_OWNER_DISCONNECTED line = false →
      re_search PATTERN_BOND_DELETION line = false →
      re_search PATTERN_BOND_DELETION_FAILED line = true →
      extract_event line = some EVENT_BOND_DELETION_FAILED) ∧
    (re_search PATTERN_OWNER_PAIRING_STARTED line = false →
      re_search PATTERN_OWNER_PAIRING_COMPLETED line = false →
      re_search PATTERN_OLD_OWNER_DISCONNECTED line = false →
      re_search PATTERN_BOND_DELETION line = false →
      re_search PATTERN_BOND_DELETION_FAILED line = false →
      re_search PATTERN_NEW_OWNER_DISCONNECTED line = true →
      extract_event line = some EVENT_NEW_OWNER_DISCONNECTED) ∧
    (re_search PATTERN_OWNER_PAIRING_STARTED line = false →
      re_search PATTERN_OWNER_PAIRING_COMPLETED line = false →
      re_search PATTERN_OLD_OWNER_DISCONNECTED line = false →
      re_search PATTERN_BOND_DELETION line = false →
      re_search PATTERN_BOND_DELETION_FAILED line = false →
      re_search PATTERN_NEW_OWNER_DISCONNECTED line = false →
      extract_event line = none) ∧
    (re_search PATTERN_BOND_DELETION line = true →
      re_search PATTERN_BOND_DELETION_FAILED line = true) ∧
    (re_search PATTERN_BOND_DELETION line = true →
      extract_event line ≠ some EVENT_BOND_DELETION_FAILED) ∧
    (extract_event line = none →
      process_line line st = st ∧
      run_lines (line :: rest) st = run_lines rest st) := by
  refine ⟨?_, ?_, ?_, ?_, ?_, ?_, ?_, ?_, ?_, ?_⟩
  · intro h1
    simp [extract_event, h1]
  · intro h1 h2
    simp [extract_event, h1, h2]
  · intro h1 h2 h3
    simp [extract_event, h1, h2, h3]
  · intro h1 h2 h3 h4
    simp [extract_event, h1, h2, h3, h4]
  · intro h1 h2 h3 h4 h5
    simp [extract_event, h1, h2, h3, h4, h5]
  · intro h1 h2 h3 h4 h5 h6
    simp [extract_event, h1, h2, h3, h4, h5, h6]
  · intro h1 h2 h3 h4 h5 h6
    simp [extract_event, h1, h2, h3, h4, h5, h6]
  · intro h4
    have hsub : PATTERN_BOND_DELETION_FAILED.data <:+: PATTERN_BOND_DELETION.data := by
      decide
    simp only [re_search, decide_eq_true_eq] at h4 ⊢
    exact hsub.trans h4
  · intro h4
    by_cases h1 : re_search PATTERN_OWNER_PAIRING_STARTED line = true <;>
      by_cases h2 : re_search PATTERN_OWNER_PAIRING_COMPLETED line = true <;>
        by_cases h3 : re_search PATTERN_OLD_OWNER_DISCONNECTED line = true <;>
          simp [extract_event, h1, h2, h3, h4, EVENT_OWNER_PAIRING_STARTED,
            EVENT_OWNER_PAIRING_COMPLETED, EVENT_OLD_OWNER_DISCONNECTED,
            EVENT_BOND_DELETION, EVENT_BOND_DELETION_FAILED]
  · intro h
    refine ⟨?_, ?_⟩
    · simp [process_line, h]
    · simp [run_lines, h]

/-- C7 witness: the success bond-deletion line is classified as
`EVENT_BOND_DELETION`, never as `EVENT_BOND_DELETION_FAILED`. -/
theorem C7_extractor_priority_witness :
    extract_event
        ("BLE Cloud Event: Bond Deletion - Deletion Type: 02 | Status: 00") ≠
      some EVENT_BOND_DELETION_FAILED :=
  (C7_extractor_priority
    ("BLE Cloud Event: Bond Deletion - Deletion Type: 02 | Status: 00")
    [] initial_st).2.2.2.2.2.2.2.2.1 (by decide)

/-- C8: if every line before line k yields no event and line k yields
`EVENT_OWNER_PAIRING_COMPLETED`, the scan stops at line k in state
`STATE_WAITING_FOR_OWNER_PAIRING` with diagnostic "Owner Pairing was not
started" and status "FAILED", whatever the remaining lines contain. -/
theorem C8_out_of_order (pre : List String) (line : String) (rest : List String)
    (hpre : ∀ l ∈ pre, extract_event l = none)
    (hline : extract_event line = some EVENT_OWNER_PAIRING_COMPLETED) :
    analyze_lines (pre ++ line :: rest) =
      (STATE_WAITING_FOR_OWNER_PAIRING, "Owner Pairing was not started") ∧
    (verdict_row (analyze_lines (pre ++ line :: rest))).status = "FAILED" := by
  have hrun : analyze_lines (pre ++ line :: rest) =
      (STATE_WAITING_FOR_OWNER_PAIRING, "Owner Pairing was not started") := by
    unfold analyze_lines
    rw [run_lines_skip_none pre hpre (line :: rest) initial_st]
    simp only [run_lines, hline]
    rw [if_pos (show (owner_swap_state_machine EVENT_OWNER_PAIRING_COMPLETED
      initial_st.1).2 ≠ "OK" by decide)]
    decide
  exact ⟨hrun, by rw [hrun]; decide⟩

/-- C8 witness: an unmatched line followed by the out-of-order completion
line fails with the expected state and diagnostic. -/
theorem C8_out_of_order_witness :
    analyze_lines ([("some unrelated line")] ++
        ("Owner Pairing Complete!") :: []) =
      (STATE_WAITING_FOR_OWNER_PAIRING, "Owner Pairing was not started") ∧
    (verdict_row (analyze_lines ([("some unrelated line")] ++
        ("Owner Pairing Complete!") :: []))).status = "FAILED" :=
  C8_out_of_order [("some unrelated line")] ("Owner Pairing Complete!") []
    (by decide) (by decide)

/-- C9: a read or decode failure becomes a FAILED verdict with final state
"EXCEPTION" and the error text as diagnostic, and every other file of the
batch is processed exactly as it would be on its own. -/
theorem C9_exception_isolation (e : String)
    (pre post : List (Except String (List String))) :
    analyze_log_file (Except.error e) = ⟨"FAILED", "EXCEPTION", e⟩ ∧
    analyze_batch (pre ++ Except.error e :: post) =
      analyze_batch pre ++ ⟨"FAILED", "EXCEPTION", e⟩ :: analyze_batch post := by
  refine ⟨rfl, ?_⟩
  simp [analyze_batch, analyze_log_file]

/-- C10: whenever the final state of a scan is `STATE_OWNER_SWAP_SUCCESS`
the final diagnostic is "OK", so the status is "PASSED" exactly when the
final state is `STATE_OWNER_SWAP_SUCCESS`: the diagnostic conjunct of the
verdict rule is redundant. -/
theorem C10_success_implies_ok (lines : List String) :
    ((analyze_lines lines).1 = STATE_OWNER_SWAP_SUCCESS →
      (analyze_lines lines).2 = "OK") ∧
    ((verdict_row (analyze_lines lines)).status = "PASSED" ↔
      (analyze_lines lines).1 = STATE_OWNER_SWAP_SUCCESS) := by
  have h1 : (analyze_lines lines).1 = STATE_OWNER_SWAP_SUCCESS →
      (analyze_lines lines).2 = "OK" :=
    (run_lines_success_inv lines initial_st (by decide) (by decide)).2
  have h2 := verdict_row_cases (analyze_lines lines)
  refine ⟨h1, ?_, ?_⟩
  · intro hp
    exact (h2.1.mp hp).1
  · intro hs
    exact h2.1.mpr ⟨hs, h1 hs⟩

/-- C10 witness: on the concrete full-success stream the final state is the
terminal one, and the theorem yields the "OK" diagnostic. -/
theorem C10_success_implies_ok_witness :
    (analyze_lines scenario_full_success_lines).2 = "OK" :=
  (C10_success_implies_ok scenario_full_success_lines).1 (by decide)

end OwnerSwap
